import Mathlib

/-!
Verification of the PC-Agent orchestration glue (`src/crew.py`).

The file shallowly embeds the pure helper tools of `crew.py`
(`human_confirm`, `winget_install`, `vscode_get_version`,
`need_api_key_and_exit` and the startup check of `main`), with external
effects (reading a line, running a subprocess, probing the filesystem,
reading the environment) supplied as explicit oracles, and a spec-modelled
supervisor loop for the orchestration core that lives in the external
agent framework and is only configured by `crew.py`.
-/

namespace PCAgent

/-! ### Python string primitives (ASCII fragment)

`str.strip`, `str.lower`, truthiness and `str.splitlines` as used by the
source, modelled on the ASCII range. -/

/-- ASCII whitespace recognised by the Python `str.strip`. -/
def pyIsSpace (c : Char) : Bool :=
  c == ' ' || c == '\t' || c == '\n' || c == '\r' || c == '\x0b' || c == '\x0c'

/-- ASCII line breaks recognised by the Python `str.splitlines`. -/
def pyIsLineBreak (c : Char) : Bool :=
  c == '\n' || c == '\r' || c == '\x0b' || c == '\x0c'

/-- Python `str.strip` on a character list: drop whitespace from both ends. -/
def pyStrip (l : List Char) : List Char :=
  ((l.dropWhile pyIsSpace).reverse.dropWhile pyIsSpace).reverse

/-- Python `str.strip` on strings. -/
def pyStripStr (s : String) : String :=
  String.mk (pyStrip s.data)

/-- Python `str.lower` (ASCII range: `Char.toLower` maps A-Z to a-z). -/
def pyLower (s : String) : String :=
  String.mk (s.data.map Char.toLower)

/-- `s.splitlines()[0]` of a string that does not start with a line break:
the characters before the first line break. -/
def firstLine (s : String) : String :=
  String.mk (s.data.takeWhile (fun c => !(pyIsLineBreak c)))

/-! ### Approval Gate (`human_confirm`, crew.py lines 15-17)

`ans = input(...).strip().lower(); return "yes" if ans in ("y","yes") else "no"`.
The line read from the interactive channel is the explicit argument. -/

/-- Embedding of `human_confirm`: strip, lower, compare against `("y","yes")`. -/
def human_confirm (line : String) : String :=
  let ans := pyLower (pyStripStr line)
  if ans = "y" ∨ ans = "yes" then "yes" else "no"

/-- Spec-side predicate, from the words of the spec only: the input `matches
"y" or "yes" case-insensitively` (equal up to ASCII case, no stripping). -/
def matchesAffirmative (s : String) : Bool :=
  (pyLower s == "y") || (pyLower s == "yes")

/-! ### Subprocess model

`subprocess.run(args, capture_output=True, text=True)` is an oracle from the
argument vector to a completed process. With `check=True` a nonzero return
code would raise `CalledProcessError` (the exceptional branch); the source
always leaves `check` at its default `False`. -/

/-- Result of a completed subprocess: captured text streams and return code. -/
structure CompletedProcess where
  stdout : String
  stderr : String
  returncode : Int
deriving DecidableEq, Repr

/-- `subprocess.run` with an explicit `check` flag: `check=True` on a
nonzero return code takes the exceptional branch (`CalledProcessError`). -/
def subprocess_run (shell : List String → CompletedProcess)
    (args : List String) (check : Bool) : Except CompletedProcess CompletedProcess :=
  let p := shell args
  if check && p.returncode != 0 then .error p else .ok p

/-! ### WinGet installer tool (`winget_install`, crew.py lines 20-29) -/

/-- The argument vector `winget_install` passes to `subprocess.run`. -/
def wingetArgs (package_id : String) (silent : Bool) : List String :=
  ["winget", "install", "--id", package_id] ++
    (if silent then ["--silent", "--accept-source-agreements", "--accept-package-agreements"]
     else [])

/-- Embedding of `winget_install`: run winget, return
`(p.stdout + p.stderr).strip() or "done"`; the `Except` layer records
whether the exceptional branch of the subprocess call is taken. -/
def winget_install (shell : List String → CompletedProcess)
    (package_id : String) (silent : Bool := true) : Except CompletedProcess String :=
  match subprocess_run shell (wingetArgs package_id silent) false with
  | .error e => .error e
  | .ok p =>
      let merged := pyStripStr (p.stdout ++ p.stderr)
      .ok (if merged = "" then "done" else merged)

/-! ### VS Code version tool (`vscode_get_version`, crew.py lines 32-49) -/

/-- Environment oracle for `vscode_get_version`: `shutil.which("code")`,
the `os.path.expandvars` expansion of the `%LOCALAPPDATA%` candidate,
`os.path.exists`, and `subprocess.run([exe, "--version"], ...)`. -/
structure VsEnv where
  which_code : Option String
  localAppDataCode : String
  pathExists : String → Bool
  runVersion : String → CompletedProcess

/-- Second fixed fallback path of `vscode_get_version` (crew.py line 40). -/
def programFilesCode : String := "C:\\Program Files\\Microsoft VS Code\\Code.exe"

/-- Third fixed fallback path of `vscode_get_version` (crew.py line 41). -/
def programFilesX86Code : String := "C:\\Program Files (x86)\\Microsoft VS Code\\Code.exe"

/-- The candidate list of `vscode_get_version`: `shutil.which("code")` first
when present, then the three well-known install paths in source order. -/
def candidates (env : VsEnv) : List String :=
  (match env.which_code with
   | some c => [c]
   | none => []) ++
  [env.localAppDataCode, programFilesCode, programFilesX86Code]

/-- `(r.stdout or r.stderr).strip()`: stdout when truthy (non-empty),
else stderr, then stripped. -/
def probeOut (r : CompletedProcess) : String :=
  pyStripStr (if r.stdout != "" then r.stdout else r.stderr)

/-- The `for exe in candidates` loop: skip falsy or non-existing candidates,
run `--version`, return the first line of a non-empty output, otherwise
keep going; `"unknown"` when the list is exhausted. -/
def vscode_probe (env : VsEnv) : List String → String
  | [] => "unknown"
  | exe :: rest =>
      if (exe != "") && env.pathExists exe then
        let out := probeOut (env.runVersion exe)
        if out != "" then firstLine out else vscode_probe env rest
      else vscode_probe env rest

/-- Embedding of `vscode_get_version`. -/
def vscode_get_version (env : VsEnv) : String :=
  vscode_probe env (candidates env)

/-! ### Startup credential check (crew.py lines 8-12 and 51-54) -/

/-- Observable startup events of `main`: printed lines, a `sys.exit`, and a
marker abstracting everything past the credential check (constructing the
model client, the agents and running the supervisor, lines 56-112). -/
inductive Event where
  | printed (s : String)
  | exitedWith (code : Nat)
  | runStarted
deriving DecidableEq, Repr

/-- Embedding of `need_api_key_and_exit`: the remediation prints followed by
`sys.exit(1)`. -/
def need_api_key_and_exit : List Event :=
  [.printed "\n[SETUP] OPENAI_API_KEY is not set.",
   .printed "Set it via: Start → \x27Environment Variables\x27 → \x27Environment Variables…\x27 → New (User)",
   .printed "  Name: OPENAI_API_KEY   Value: <your key>\nThen reopen PowerShell and run again.\n",
   .exitedWith 1]

/-- Python truthiness of `os.getenv`: `None` and `""` are falsy. -/
def pyTruthyEnv : Option String → Bool
  | none => false
  | some s => s != ""

/-- Startup of `main` up to the credential check: print the banner, then
`if not os.getenv("OPENAI_API_KEY"): need_api_key_and_exit()`; otherwise
the orchestration run is constructed and started. -/
def main_startup (getenv : String → Option String) : List Event :=
  .printed "[START] Multi-agent setup…" ::
    (if pyTruthyEnv (getenv "OPENAI_API_KEY") then [.runStarted]
     else need_api_key_and_exit)

/-! ### Supervisor loop (spec §4.5, configured at crew.py lines 56-57 and 89-102)

The loop itself lives in the external agent framework (`AssistantAgent.run`),
not under `src/`; `crew.py` only configures it (`parallel_tool_calls=False`,
`max_tool_iterations=20`). It is therefore modelled from the spec. -/

/-- A tool call emitted by the Reasoning Engine: tool name and arguments. -/
structure ToolCall where
  name : String
  args : String
deriving DecidableEq, Repr

/-- A turn of the ConversationState. -/
inductive Turn where
  | system (text : String)
  | mission (text : String)
  | toolCall (tc : ToolCall)
  | toolResult (toolName : String) (output : String)
  | engineText (text : String)
deriving DecidableEq, Repr

/-- Modelled from the spec: a decision of the Reasoning Engine is either a
final answer or exactly one ToolCall — `parallel_tool_calls=False`
(crew.py line 57) forbids several calls per decision. -/
inductive Decision where
  | final (answer : String)
  | call (tc : ToolCall)

/-- Terminal states of a run: `DONE` with the final answer, or `ABORTED`
on iteration-cap exhaustion. -/
inductive Outcome where
  | done (answer : String)
  | aborted
deriving DecidableEq, Repr

/-- Modelled from the spec: the supervisor loop of §4.5 (the loop body is in
the external framework, missing from src/). Fuel counts the remaining
decision/tool-call cycles. Each cycle queries the engine; a final answer
terminates in `DONE`; one ToolCall is dispatched, its ToolResult appended,
and the loop continues; exhausted fuel terminates in `ABORTED`. -/
def supervisorLoop (engine : List Turn → Decision) (exec : ToolCall → String) :
    Nat → List Turn → List Turn × Outcome
  | 0, hist => (hist, .aborted)
  | n + 1, hist =>
      match engine hist with
      | .final ans => (hist ++ [.engineText ans], .done ans)
      | .call tc =>
          supervisorLoop engine exec n
            (hist ++ [.toolCall tc, .toolResult tc.name (exec tc)])

/-- The iteration cap configured on the supervisor (crew.py line 101). -/
def max_tool_iterations : Nat := 20

/-- A full supervisor run: ConversationState seeded with the system
instructions and the mission, then the loop under the configured cap. -/
def supervisor_run (engine : List Turn → Decision) (exec : ToolCall → String)
    (sys mission : String) : List Turn × Outcome :=
  supervisorLoop engine exec max_tool_iterations [.system sys, .mission mission]

/-- Number of ToolCall turns in a history. -/
def countCalls (h : List Turn) : Nat :=
  h.countP (fun t => match t with | .toolCall _ => true | _ => false)

/-- Strictly sequenced history segment: every ToolCall is immediately
followed by its ToolResult (same tool name) before anything else happens,
and at most a final engine answer closes the segment. -/
inductive StrictSeq : List Turn → Prop where
  | nil : StrictSeq []
  | final (a : String) : StrictSeq [Turn.engineText a]
  | step (tc : ToolCall) (out : String) (rest : List Turn) :
      StrictSeq rest → StrictSeq (Turn.toolCall tc :: Turn.toolResult tc.name out :: rest)

/-! ### Concrete fixtures used to instantiate the theorems -/

/-- Loop guard plus non-empty probe output: the candidate the version is
taken from is the first one satisfying this predicate. -/
def yieldsVersion (env : VsEnv) (c : String) : Bool :=
  (c != "") && env.pathExists c && (probeOut (env.runVersion c) != "")

/-- Shell oracle whose every invocation reports empty output. -/
def shellQuiet : List String → CompletedProcess := fun _ => ⟨"", "", 0⟩

/-- Shell oracle whose every invocation fails with error text on stderr. -/
def shellNoisy : List String → CompletedProcess :=
  fun _ => ⟨"", "  error: no package found matching input criteria\n", 1⟩

/-- Environment with no VS Code anywhere. -/
def envNoInstall : VsEnv :=
  { which_code := none
    localAppDataCode := "C:\\Users\\u\\AppData\\Local\\Programs\\Microsoft VS Code\\Code.exe"
    pathExists := fun _ => false
    runVersion := fun _ => ⟨"", "", 0⟩ }

/-- Environment where `code` is not on PATH, the per-user install is absent,
and the second fixed candidate (Program Files) exists. -/
def envSecond : VsEnv :=
  { which_code := none
    localAppDataCode := "C:\\Users\\u\\AppData\\Local\\Programs\\Microsoft VS Code\\Code.exe"
    pathExists := fun s => s == programFilesCode
    runVersion := fun _ => ⟨"1.92.1\n5437\nx64", "", 0⟩ }

/-- Environment where `shutil.which` finds `code` on PATH. -/
def envWhich : VsEnv :=
  { which_code := some "C:\\tools\\code.cmd"
    localAppDataCode := "C:\\Users\\u\\AppData\\Local\\Programs\\Microsoft VS Code\\Code.exe"
    pathExists := fun s => s == "C:\\tools\\code.cmd"
    runVersion := fun _ => ⟨"1.92.1\n5437\nx64", "", 0⟩ }

/-- Environment where the first candidate exists but reports only blank
output on both streams, and a later candidate would answer. -/
def envBlankOut : VsEnv :=
  { which_code := some "W"
    localAppDataCode := "L"
    pathExists := fun _ => true
    runVersion := fun s => if s = "W" then ⟨"  ", " \n", 0⟩ else ⟨"9.9", "", 0⟩ }

/-- Environment map with no `OPENAI_API_KEY` entry. -/
def getenvNoKey : String → Option String := fun _ => none

/-- Environment map where `OPENAI_API_KEY` is present but empty. -/
def getenvEmptyKey : String → Option String :=
  fun k => if k = "OPENAI_API_KEY" then some "" else none

/-- Environment map where `OPENAI_API_KEY` carries a non-empty value. -/
def getenvWithKey : String → Option String :=
  fun k => if k = "OPENAI_API_KEY" then some "sk-test" else none

/-! ## Theorems -/

/-- C1 — counterexample. The claim as stated is false: the input line
`"  Y  "` does not match `"y"` or `"yes"` case-insensitively (it carries
surrounding whitespace), yet `human_confirm` answers `"yes"`, because the
source strips the line before comparing. -/
theorem C1_counterexample :
    human_confirm "  Y  " = "yes" ∧ matchesAffirmative "  Y  " = false := by
  constructor <;> decide

/-- C1 — amended: for every input line, `human_confirm` returns exactly
`"yes"` when the line, after stripping leading and trailing whitespace,
matches `"y"` or `"yes"` case-insensitively, and exactly `"no"` for every
other input, including the empty input. -/
theorem C1_human_confirm_default_deny (line : String) :
    (matchesAffirmative (pyStripStr line) = true → human_confirm line = "yes") ∧
    (matchesAffirmative (pyStripStr line) = false → human_confirm line = "no") := by
  constructor
  · intro h
    simp only [matchesAffirmative, Bool.or_eq_true, beq_iff_eq] at h
    rcases h with h | h <;> simp [human_confirm, h]
  · intro h
    simp only [matchesAffirmative, Bool.or_eq_false_iff, beq_eq_false_iff_ne] at h
    simp [human_confirm, h.1, h.2]

/-- C1 — witness: concrete affirmative and negative inputs. -/
theorem C1_witness : human_confirm "yEs" = "yes" ∧ human_confirm "nope" = "no" :=
  ⟨(C1_human_confirm_default_deny "yEs").1 (by decide),
   (C1_human_confirm_default_deny "nope").2 (by decide)⟩

/-- C9 — `human_confirm` strips surrounding whitespace before matching:
`"  Y  "` and `"YES "` yield `"yes"`, and any whitespace-only line yields
`"no"`. -/
theorem C9_human_confirm_strips (line : String) :
    ((∀ c ∈ line.data, pyIsSpace c = true) → human_confirm line = "no") ∧
    human_confirm "  Y  " = "yes" ∧ human_confirm "YES " = "yes" := by
  refine ⟨?_, by decide, by decide⟩
  intro hws
  have h1 : line.data.dropWhile pyIsSpace = [] :=
    List.dropWhile_eq_nil_iff.mpr hws
  simp [human_confirm, pyStripStr, pyStrip, pyLower, h1]

/-- C9 — witness: a whitespace-only line is denied. -/
theorem C9_witness : human_confirm "   " = "no" :=
  (C9_human_confirm_strips "   ").1 (by decide)

/-- C2 — `winget_install` never takes the exceptional branch: for every
shell oracle and package identifier the result is an `ok` payload, equal to
the combined stripped stdout+stderr text or to the `"done"` sentinel, also
when the underlying command fails (the subprocess call is made with the
default `check=False`, so a nonzero return code raises nothing). -/
theorem C2_winget_install_never_raises (shell : List String → CompletedProcess)
    (package_id : String) (silent : Bool) :
    ∃ s, winget_install shell package_id silent = Except.ok s ∧
      (s = pyStripStr ((shell (wingetArgs package_id silent)).stdout ++
          (shell (wingetArgs package_id silent)).stderr) ∨ s = "done") := by
  unfold winget_install subprocess_run
  simp only [Bool.false_and, Bool.false_eq_true, if_false]
  by_cases h : pyStripStr ((shell (wingetArgs package_id silent)).stdout ++
      (shell (wingetArgs package_id silent)).stderr) = ""
  · exact ⟨"done", by simp [h], Or.inr rfl⟩
  · exact ⟨_, by simp [h], Or.inl rfl⟩

/-- C3 — `winget_install` invokes the package manager with exactly the
identifier and the fixed silent-mode flags (its result depends on the shell
oracle only at that argument vector), and returns the merged stripped
stdout+stderr, with the `"done"` sentinel exactly when that stripped merge
is empty. -/
theorem C3_winget_install_payload (shell shell2 : List String → CompletedProcess)
    (package_id : String) :
    wingetArgs package_id true =
      ["winget", "install", "--id", package_id, "--silent",
       "--accept-source-agreements", "--accept-package-agreements"] ∧
    (shell (wingetArgs package_id true) = shell2 (wingetArgs package_id true) →
      winget_install shell package_id true = winget_install shell2 package_id true) ∧
    (pyStripStr ((shell (wingetArgs package_id true)).stdout ++
        (shell (wingetArgs package_id true)).stderr) = "" →
      winget_install shell package_id true = Except.ok "done") ∧
    (pyStripStr ((shell (wingetArgs package_id true)).stdout ++
        (shell (wingetArgs package_id true)).stderr) ≠ "" →
      winget_install shell package_id true =
        Except.ok (pyStripStr ((shell (wingetArgs package_id true)).stdout ++
          (shell (wingetArgs package_id true)).stderr))) := by
  refine ⟨rfl, ?_, ?_, ?_⟩
  · intro h
    unfold winget_install subprocess_run
    rw [h]
  · intro h
    unfold winget_install subprocess_run
    simp [h]
  · intro h
    unfold winget_install subprocess_run
    simp [h]

/-- C3 — witness: an empty-output install yields the sentinel, a failing
install yields its stripped error text. -/
theorem C3_witness :
    winget_install shellQuiet "Git.Git" true = Except.ok "done" ∧
    winget_install shellNoisy "Git.Git" true =
      Except.ok "error: no package found matching input criteria" :=
  ⟨(C3_winget_install_payload shellQuiet shellQuiet "Git.Git").2.2.1 (by decide),
   ((C3_winget_install_payload shellNoisy shellNoisy "Git.Git").2.2.2
      (by decide)).trans (congrArg Except.ok (by decide))⟩

/-- Helper: the probe loop answers `"unknown"` when no candidate in the
list exists. -/
theorem vscode_probe_unknown (env : VsEnv) (l : List String)
    (h : ∀ c ∈ l, env.pathExists c = false) : vscode_probe env l = "unknown" := by
  induction l with
  | nil => rfl
  | cons x xs ih =>
      have hx : env.pathExists x = false := h x (List.mem_cons_self x xs)
      simp only [vscode_probe, hx, Bool.and_false, Bool.false_eq_true, if_false]
      exact ih (fun c hc => h c (List.mem_cons_of_mem x hc))

/-- Helper: when every candidate before `c` does not exist and `c` exists
with non-empty probe output, the loop answers the first line of that
output. -/
theorem vscode_probe_append (env : VsEnv) (pre : List String) (c : String)
    (post : List String)
    (hpre : ∀ x ∈ pre, env.pathExists x = false)
    (hne : c ≠ "") (hex : env.pathExists c = true)
    (hout : probeOut (env.runVersion c) ≠ "") :
    vscode_probe env (pre ++ c :: post) = firstLine (probeOut (env.runVersion c)) := by
  induction pre with
  | nil => simp [vscode_probe, hex, hne, hout]
  | cons x xs ih =>
      have hx : env.pathExists x = false := hpre x (List.mem_cons_self x xs)
      simp only [List.cons_append, vscode_probe, hx, Bool.and_false,
        Bool.false_eq_true, if_false]
      exact ih (fun y hy => hpre y (List.mem_cons_of_mem x hy))

/-- Helper: the probe loop is the `find?` of the first candidate that is
non-empty, exists and yields non-blank version output. -/
theorem vscode_probe_eq_find (env : VsEnv) (l : List String) :
    vscode_probe env l =
      (match l.find? (yieldsVersion env) with
       | some c => firstLine (probeOut (env.runVersion c))
       | none => "unknown") := by
  induction l with
  | nil => rfl
  | cons x xs ih =>
      by_cases h1 : ((x != "") && env.pathExists x) = true
      · by_cases h2 : (probeOut (env.runVersion x) != "") = true
        · simp [vscode_probe, List.find?, yieldsVersion, h1, h2]
        · simp [vscode_probe, List.find?, yieldsVersion, h1, h2, ih]
      · simp [vscode_probe, List.find?, yieldsVersion, h1, ih]

/-- C4 — when no candidate location exists, `vscode_get_version` returns
`"unknown"`; when the candidate at position `|pre|` is the first that
exists (and yields output), the result is the first line of that
candidate's version output. -/
theorem C4_vscode_get_version_cases (env : VsEnv) :
    ((∀ c ∈ candidates env, env.pathExists c = false) →
      vscode_get_version env = "unknown") ∧
    (∀ pre c post, candidates env = pre ++ c :: post →
      (∀ x ∈ pre, env.pathExists x = false) →
      c ≠ "" → env.pathExists c = true →
      probeOut (env.runVersion c) ≠ "" →
      vscode_get_version env = firstLine (probeOut (env.runVersion c))) := by
  constructor
  · intro h
    exact vscode_probe_unknown env (candidates env) h
  · intro pre c post hsplit hpre hne hex hout
    unfold vscode_get_version
    rw [hsplit]
    exact vscode_probe_append env pre c post hpre hne hex hout

/-- C4 — witness: no install anywhere gives `"unknown"`; an install at the
second fixed candidate gives the first line of its version output. -/
theorem C4_witness :
    vscode_get_version envNoInstall = "unknown" ∧
    vscode_get_version envSecond = "1.92.1" := by
  constructor
  · exact (C4_vscode_get_version_cases envNoInstall).1 (by decide)
  · have h := (C4_vscode_get_version_cases envSecond).2
      [envSecond.localAppDataCode] programFilesCode [programFilesX86Code]
      rfl (by decide) (by decide) (by decide) (by decide)
    rw [h]; decide

/-- C5 — fixed probing priority: the candidate list is the `shutil.which`
lookup first (when it succeeds) followed by the default install paths in
their listed order, and the result is taken from the first candidate
yielding a version string (`find?` over the candidate list). -/
theorem C5_vscode_priority_order (env : VsEnv) :
    (vscode_get_version env =
      (match (candidates env).find? (yieldsVersion env) with
       | some c => firstLine (probeOut (env.runVersion c))
       | none => "unknown")) ∧
    (∀ c, env.which_code = some c →
      candidates env =
        c :: [env.localAppDataCode, programFilesCode, programFilesX86Code]) ∧
    (env.which_code = none →
      candidates env =
        [env.localAppDataCode, programFilesCode, programFilesX86Code]) := by
  refine ⟨vscode_probe_eq_find env (candidates env), ?_, ?_⟩
  · intro c hc
    simp [candidates, hc]
  · intro hc
    simp [candidates, hc]

/-- C5 — witness: with `code` on PATH the which-lookup heads the candidate
list and supplies the version. -/
theorem C5_witness :
    candidates envWhich =
      "C:\\tools\\code.cmd" ::
        [envWhich.localAppDataCode, programFilesCode, programFilesX86Code] ∧
    vscode_get_version envWhich = "1.92.1" := by
  constructor
  · exact (C5_vscode_priority_order envWhich).2.1 "C:\\tools\\code.cmd" rfl
  · rw [(C5_vscode_priority_order envWhich).1]; decide

/-- C10 — per-candidate output selection: the version text comes from
stdout when stdout is non-empty, otherwise from stderr; and when both
streams strip to empty the loop does not return for that candidate but
falls through to the next one. -/
theorem C10_probe_selection (env : VsEnv) (r : CompletedProcess) (exe : String)
    (rest : List String) :
    (r.stdout ≠ "" → probeOut r = pyStripStr r.stdout) ∧
    (r.stdout = "" → probeOut r = pyStripStr r.stderr) ∧
    (pyStripStr (env.runVersion exe).stdout = "" →
      pyStripStr (env.runVersion exe).stderr = "" →
      vscode_probe env (exe :: rest) = vscode_probe env rest) := by
  refine ⟨?_, ?_, ?_⟩
  · intro h; simp [probeOut, h]
  · intro h; simp [probeOut, h]
  · intro h1 h2
    by_cases hg : ((exe != "") && env.pathExists exe) = true
    · have hout : probeOut (env.runVersion exe) = "" := by
        unfold probeOut
        by_cases hs : ((env.runVersion exe).stdout != "") = true
        · simp [hs, h1]
        · simp [hs, h2]
      simp [vscode_probe, hg, hout]
    · simp [vscode_probe, hg]

/-- C10 — witness: stdout wins when non-empty, stderr is used when stdout
is empty, and a blank-output candidate falls through to the next one. -/
theorem C10_witness :
    probeOut ⟨"1.0\n", "err", 0⟩ = "1.0" ∧
    probeOut ⟨"", "9.9 stderr", 0⟩ = "9.9 stderr" ∧
    vscode_probe envBlankOut ["W", "X"] = vscode_probe envBlankOut ["X"] := by
  refine ⟨?_, ?_, ?_⟩
  · rw [(C10_probe_selection envBlankOut ⟨"1.0\n", "err", 0⟩ "W" []).1 (by decide)]
    decide
  · rw [(C10_probe_selection envBlankOut ⟨"", "9.9 stderr", 0⟩ "W" []).2.1 rfl]
    decide
  · exact (C10_probe_selection envBlankOut ⟨"", "", 0⟩ "W" ["X"]).2.2
      (by decide) (by decide)

/-- Helper: counting ToolCall turns distributes over history append. -/
theorem countCalls_append (h l : List Turn) :
    countCalls (h ++ l) = countCalls h + countCalls l := by
  simp [countCalls, List.countP_append]

/-- Helper: a final engine answer contributes no ToolCall. -/
theorem countCalls_engineText (a : String) : countCalls [Turn.engineText a] = 0 := rfl

/-- Helper: one dispatched cycle contributes exactly one ToolCall. -/
theorem countCalls_pair (tc : ToolCall) (s r : String) :
    countCalls [Turn.toolCall tc, Turn.toolResult s r] = 1 := rfl

/-- Helper: with fuel `n` the loop adds at most `n` ToolCalls, and ends
`ABORTED` exactly when it used all `n` cycles. -/
theorem supervisorLoop_cap (e : List Turn → Decision) (x : ToolCall → String) :
    ∀ n h, countCalls (supervisorLoop e x n h).1 ≤ countCalls h + n ∧
      ((supervisorLoop e x n h).2 = Outcome.aborted ↔
        countCalls (supervisorLoop e x n h).1 = countCalls h + n) := by
  intro n
  induction n with
  | zero => intro h; simp [supervisorLoop]
  | succ n ih =>
      intro h
      cases hd : e h with
      | final ans =>
          simp only [supervisorLoop, hd]
          rw [countCalls_append, countCalls_engineText]
          constructor
          · omega
          · constructor
            · intro habs; exact Outcome.noConfusion habs
            · intro hc; omega
      | call tc =>
          simp only [supervisorLoop, hd]
          obtain ⟨h1, h2⟩ := ih (h ++ [Turn.toolCall tc, Turn.toolResult tc.name (x tc)])
          rw [countCalls_append, countCalls_pair] at h1 h2
          exact ⟨by omega, by rw [h2]; omega⟩

/-- Helper: the loop only appends to the history, and what it appends is a
strictly sequenced segment. -/
theorem supervisorLoop_strictSeq (e : List Turn → Decision) (x : ToolCall → String) :
    ∀ n h, ∃ seg, (supervisorLoop e x n h).1 = h ++ seg ∧ StrictSeq seg := by
  intro n
  induction n with
  | zero => intro h; exact ⟨[], by simp [supervisorLoop], StrictSeq.nil⟩
  | succ n ih =>
      intro h
      cases hd : e h with
      | final ans =>
          exact ⟨[Turn.engineText ans], by simp [supervisorLoop, hd], StrictSeq.final ans⟩
      | call tc =>
          obtain ⟨seg, hseg, hss⟩ :=
            ih (h ++ [Turn.toolCall tc, Turn.toolResult tc.name (x tc)])
          refine ⟨Turn.toolCall tc :: Turn.toolResult tc.name (x tc) :: seg, ?_,
            StrictSeq.step tc (x tc) seg hss⟩
          simp only [supervisorLoop, hd]
          rw [hseg, List.append_assoc]
          rfl

/-- C6 — the supervisor run performs at most `max_tool_iterations = 20`
decision/tool-call cycles, it always terminates in `DONE` or `ABORTED`,
and it ends `ABORTED` exactly when the cap was reached. -/
theorem C6_iteration_cap (engine : List Turn → Decision) (exec : ToolCall → String)
    (sysMsg mission : String) :
    countCalls (supervisor_run engine exec sysMsg mission).1 ≤ max_tool_iterations ∧
    ((supervisor_run engine exec sysMsg mission).2 = Outcome.aborted ↔
      countCalls (supervisor_run engine exec sysMsg mission).1 = max_tool_iterations) ∧
    ((supervisor_run engine exec sysMsg mission).2 = Outcome.aborted ∨
      ∃ a, (supervisor_run engine exec sysMsg mission).2 = Outcome.done a) := by
  obtain ⟨h1, h2⟩ := supervisorLoop_cap engine exec max_tool_iterations
    [Turn.system sysMsg, Turn.mission mission]
  have h0 : countCalls [Turn.system sysMsg, Turn.mission mission] = 0 := rfl
  rw [h0, Nat.zero_add] at h1 h2
  refine ⟨h1, h2, ?_⟩
  cases ho : (supervisor_run engine exec sysMsg mission).2 with
  | done a => exact Or.inr ⟨a, rfl⟩
  | aborted => exact Or.inl rfl

/-- C7 — strict sequencing: the ConversationState of a run is the seeded
prefix followed by a strictly sequenced segment, in which every ToolCall is
immediately followed by its ToolResult before the next decision, so at most
one tool call is ever in flight (each `Decision` carries at most one
ToolCall, as `parallel_tool_calls=False` demands). -/
theorem C7_strict_sequencing (engine : List Turn → Decision) (exec : ToolCall → String)
    (sysMsg mission : String) :
    ∃ seg, (supervisor_run engine exec sysMsg mission).1 =
        Turn.system sysMsg :: Turn.mission mission :: seg ∧ StrictSeq seg :=
  supervisorLoop_strictSeq engine exec max_tool_iterations
    [Turn.system sysMsg, Turn.mission mission]

/-- C8 — counterexample. The claim as stated is false: with
`OPENAI_API_KEY` present in the environment but bound to the empty string,
startup does not proceed past the check — the Python truthiness test
`not os.getenv(...)` treats the empty value like an absent one and exits. -/
theorem C8_counterexample :
    getenvEmptyKey "OPENAI_API_KEY" = some "" ∧
    Event.runStarted ∉ main_startup getenvEmptyKey ∧
    Event.exitedWith 1 ∈ main_startup getenvEmptyKey := by
  decide

/-- C8 — amended: if the required API-key credential is absent from the
environment or set to the empty string, the process prints remediation
instructions and exits with status 1 before any orchestration run is
constructed or started; if it is present and non-empty, startup proceeds
past the check. -/
theorem C8_startup_credential_check (getenv : String → Option String) :
    (getenv "OPENAI_API_KEY" = none ∨ getenv "OPENAI_API_KEY" = some "" →
      main_startup getenv =
        Event.printed "[START] Multi-agent setup…" :: need_api_key_and_exit ∧
      Event.runStarted ∉ main_startup getenv) ∧
    (∀ v, getenv "OPENAI_API_KEY" = some v → v ≠ "" →
      main_startup getenv =
        [Event.printed "[START] Multi-agent setup…", Event.runStarted]) := by
  constructor
  · intro h
    have ht : pyTruthyEnv (getenv "OPENAI_API_KEY") = false := by
      rcases h with h | h <;> simp [pyTruthyEnv, h]
    have he : main_startup getenv =
        Event.printed "[START] Multi-agent setup…" :: need_api_key_and_exit := by
      simp [main_startup, ht]
    refine ⟨he, ?_⟩
    rw [he]; decide
  · intro v hv hne
    have ht : pyTruthyEnv (getenv "OPENAI_API_KEY") = true := by
      simp [pyTruthyEnv, hv, hne]
    simp [main_startup, ht]

/-- C8 — witness: a missing key exits through the remediation path, a
non-empty key reaches the run. -/
theorem C8_witness :
    main_startup getenvNoKey =
      Event.printed "[START] Multi-agent setup…" :: need_api_key_and_exit ∧
    main_startup getenvWithKey =
      [Event.printed "[START] Multi-agent setup…", Event.runStarted] :=
  ⟨((C8_startup_credential_check getenvNoKey).1 (Or.inl rfl)).1,
   (C8_startup_credential_check getenvWithKey).2 "sk-test" (by decide) (by decide)⟩

end PCAgent
